import Mathlib

/-!
Verification of the rce.js core: command/response correlation, the console
log-line classifier, the population differ and the radio-frequency poller,
shallowly embedded from the TypeScript/JavaScript sources.

JavaScript strings are modelled as Lean `String`; the JavaScript string
operations the code uses (`split`, `includes`, `startsWith`, `trim`,
`toLowerCase`, `Number` truthiness) are given structurally recursive
definitions over the underlying character lists so that every theorem can be
evaluated on concrete inputs.
-/

/-- Character-list prefix removal: returns the remainder of `s` after the
prefix `p`, or `none` when `p` is not a prefix of `s`. -/
def stripPrefixChars : List Char → List Char → Option (List Char)
  | s, [] => some s
  | [], _ :: _ => none
  | c :: cs, p :: ps => if c == p then stripPrefixChars cs ps else none

/-- Character-list substring test, used to model JavaScript
`String.prototype.includes`. -/
def charsContains (sub : List Char) : List Char → Bool
  | [] => (stripPrefixChars [] sub).isSome
  | c :: cs => (stripPrefixChars (c :: cs) sub).isSome || charsContains sub cs

/-- Fuel-driven splitter over character lists, used to model JavaScript
`String.prototype.split` with a non-empty separator.  The fuel is an upper
bound on the number of consumed characters, keeping the recursion
structural. -/
def splitChars : Nat → List Char → List Char → List Char → List (List Char)
  | 0, _, rest, acc => [acc.reverse ++ rest]
  | _ + 1, _, [], acc => [acc.reverse]
  | fuel + 1, sep, c :: cs, acc =>
    match stripPrefixChars (c :: cs) sep with
    | some rest => acc.reverse :: splitChars fuel sep rest []
    | none => splitChars fuel sep cs (c :: acc)

/-- JavaScript `s.split(sep)` for the non-empty separators used by the code;
with an empty separator it degenerates to the identity split, which the
embedded code never uses. -/
def jsSplitOn (s sep : String) : List String :=
  if sep.data.isEmpty then [s]
  else (splitChars (s.data.length + 1) sep.data s.data []).map (fun cs => ⟨cs⟩)

/-- JavaScript `s.includes(sub)`. -/
def jsIncludes (s sub : String) : Bool :=
  charsContains sub.data s.data

/-- JavaScript `s.startsWith(p)`. -/
def jsStartsWith (s p : String) : Bool :=
  (stripPrefixChars s.data p.data).isSome

/-- Remainder of `s` after the prefix `p` (the capture group of a
prefix-anchored pattern); `s` itself when `p` is not a prefix. -/
def jsDropPrefix (s p : String) : String :=
  match stripPrefixChars s.data p.data with
  | some rest => ⟨rest⟩
  | none => s

/-- Whitespace characters recognised by JavaScript `trim` that occur in
console lines. -/
def isJsWhitespace (c : Char) : Bool :=
  c == ' ' || c == '\t' || c == '\n' || c == '\r'

/-- JavaScript `s.trim()`. -/
def jsTrim (s : String) : String :=
  ⟨((s.data.dropWhile isJsWhitespace).reverse.dropWhile isJsWhitespace).reverse⟩

/-- ASCII lower-casing, modelling JavaScript `s.toLowerCase()` on the
identifiers the kill classifier inspects. -/
def asciiToLower (c : Char) : Char :=
  if 'A' ≤ c && c ≤ 'Z' then Char.ofNat (c.toNat + 32) else c

/-- JavaScript `s.toLowerCase()`. -/
def jsToLower (s : String) : String :=
  ⟨s.data.map asciiToLower⟩

/-- Truthiness of JavaScript `Number(s)` on the identifier strings the kill
classifier inspects: after trimming, a non-empty digit string coerces to its
numeric value, which is truthy exactly when some digit is non-zero; every
non-numeric string coerces to `NaN`, which is falsy. -/
def jsNumberTruthy (s : String) : Bool :=
  let t := (jsTrim s).data
  !t.isEmpty && t.all Char.isDigit && t.any (fun c => c != '0')

/-- Joins string pieces with a separator, modelling the inverse of
`jsSplitOn` for reconstructing pattern captures. -/
def joinWithSep (sep : String) : List String → String
  | [] => ""
  | [x] => x
  | x :: y :: rest => x ++ sep ++ joinWithSep sep (y :: rest)

/-- Categories a kill participant can resolve to (the constants module of the
repository): player, NPC, or animal/other. -/
inductive PlayerKillType where
  | player
  | npc
  | animal
deriving Repr, DecidableEq

/-- Resolved kill participant: raw identifier, display name and category,
as built by `ConsoleMessagesHandler.getKill` (src/unnamed/part_001). -/
structure KillPlayerData where
  id : String
  name : String
  type : PlayerKillType
deriving Repr, DecidableEq

/-- Modelled from the spec: the static `playerKillData` table of the
constants module is absent from src/; per the spec it is keyed by
lower-cased NPC/animal identifiers and maps each to a display name and a
category.  Representative entries are included; none of them is a purely
numeric identifier or an ordinary player name. -/
def playerKillData : List KillPlayerData :=
  [⟨"scientist", "Scientist", PlayerKillType.npc⟩,
   ⟨"patrolhelicopter", "Patrol Helicopter", PlayerKillType.npc⟩,
   ⟨"bradleyapc", "Bradley APC", PlayerKillType.npc⟩,
   ⟨"bear", "Bear", PlayerKillType.animal⟩,
   ⟨"wolf", "Wolf", PlayerKillType.animal⟩]

/-- Kill-participant resolver `ConsoleMessagesHandler.getKill`
(src/unnamed/part_001, lines 324-345): static-table lookup on the
lower-cased identifier first, then the `Number(ign)` truthiness test for a
generic NPC, else a player named by the identifier itself. -/
def getKill (ign : String) : KillPlayerData :=
  match playerKillData.find? (fun e => e.id == jsToLower ign) with
  | some data => ⟨ign, data.name, data.type⟩
  | none =>
    if jsNumberTruthy ign then ⟨ign, "Scientist", PlayerKillType.npc⟩
    else ⟨ign, ign, PlayerKillType.player⟩

/-- Entry of the static `EVENTS` table (src/unnamed/part_001, lines 8-37). -/
structure TimedEventEntry where
  key : String
  name : String
  special : Bool
deriving Repr, DecidableEq

/-- The static `EVENTS` table of src/unnamed/part_001 in its source order. -/
def EVENTS : List TimedEventEntry :=
  [⟨"event_airdrop", "Airdrop", false⟩,
   ⟨"event_cargoship", "Cargo Ship", false⟩,
   ⟨"event_cargoheli", "Chinook", false⟩,
   ⟨"event_helicopter", "Patrol Helicopter", false⟩,
   ⟨"event_halloween", "Halloween", true⟩,
   ⟨"event_xmas", "Christmas", true⟩,
   ⟨"event_easter", "Easter", true⟩]

/-- In-flight command record of the command correlator: session identifier,
literal command text and the optional correlation timestamp stamped by an
observed executing marker.  The resolution callback and timer handle of the
source record are modelled externally as effects. -/
structure InFlightCommand where
  identifier : String
  command : String
  timestamp : Option String := none
deriving Repr, DecidableEq

/-- Modelled from the spec: exact lookup `CommandHandler.get(session, text)`
of the correlator module absent from src/. -/
def CommandHandler.get (reg : List InFlightCommand) (identifier command : String) :
    Option InFlightCommand :=
  reg.find? (fun r => r.identifier == identifier && r.command == command)

/-- Modelled from the spec: `CommandHandler.getQueued(session, timestamp)`
returns the in-flight command of the session whose stored correlation
timestamp exactly equals the observed timestamp. -/
def CommandHandler.getQueued (reg : List InFlightCommand) (identifier date : String) :
    Option InFlightCommand :=
  reg.find? (fun r => r.identifier == identifier && r.timestamp == some date)

/-- Modelled from the spec: `CommandHandler.add` registers a new in-flight
command and fails silently when one with the same (session, text) key
already exists. -/
def CommandHandler.add (reg : List InFlightCommand) (c : InFlightCommand) :
    List InFlightCommand :=
  if (CommandHandler.get reg c.identifier c.command).isSome then reg
  else reg ++ [c]

/-- Modelled from the spec: idempotent removal by the record key; removing
an absent lookup result is a no-op, mirroring
`CommandHandler.remove(CommandHandler.get(...))` call sites. -/
def CommandHandler.removeOpt (reg : List InFlightCommand) :
    Option InFlightCommand → List InFlightCommand
  | none => reg
  | some c =>
    reg.filter (fun r => !(r.identifier == c.identifier && r.command == c.command))

/-- Stamps the observed timestamp onto the first registry record with the
given key, modelling the in-place mutation
`command.timestamp = date` on the record returned by `CommandHandler.get`
(src/unnamed/part_001, line 70). -/
def stampTimestamp : List InFlightCommand → String → String → String →
    List InFlightCommand
  | [], _, _, _ => []
  | r :: rest, identifier, command, date =>
    if r.identifier == identifier && r.command == command then
      { r with timestamp := some date } :: rest
    else r :: stampTimestamp rest identifier command date

/-- Population differ from `Helper.comparePopulation` (src/unnamed/part_003):
`joined` keeps the new names absent from the old list, `left` keeps the old
names absent from the new list, both by `filter` over the source list. -/
def comparePopulation (oldList newList : List String) :
    List String × List String :=
  let joined := newList.filter (fun ign => !oldList.contains ign)
  let left := oldList.filter (fun ign => !newList.contains ign)
  (joined, left)

/-- Observable effect of the embedded code: an emitted domain event, a
resolution of an in-flight command promise, or the clearing of its pending
timer. -/
inductive Effect where
  | message (log : String)
  | executingCommand (command : String)
  | resolveCommand (command : String) (ok : Bool) (response : Option String)
  | clearTimeout (command : String)
  | playerSuicide (ign : String)
  | playerRespawned (ign : String) (platform : String)
  | eventStart (event : String) (special : Bool)
  | playerKill (victim killer : KillPlayerData)
  | frequencyLost (frequency : Nat)
  | frequencyGained (frequency : Nat) (coordinates : List String) (range : Nat)
deriving Repr, DecidableEq

/-- Recognises the timed-event-start effects for the fan-out property. -/
def Effect.isEventStart : Effect → Bool
  | .eventStart _ _ => true
  | _ => false

/-- Modelled from the spec: `RegularExpressions.Log` of the constants module
absent from src/ strips a console line to its `(timestamp, content)` pair;
modelled as a fixed delimiter between the two captures. -/
def parseLog (line : String) : Option (String × String) :=
  match jsSplitOn line ":LOG:DEFAULT: " with
  | d :: c :: rest => some (d, joinWithSep ":LOG:DEFAULT: " (c :: rest))
  | _ => none

/-- Modelled from the spec: `RegularExpressions.CommandExecuting` of the
constants module absent from src/ matches an executing-command marker and
captures the command text; modelled as a fixed marker prefix. -/
def parseExecuting (log : String) : Option String :=
  if jsStartsWith log "Executing command: " then
    some (jsDropPrefix log "Executing command: ")
  else none

/-- PLAYER_SUICIDE section of `ConsoleMessagesHandler.handle`
(src/unnamed/part_001, lines 126-132). -/
def suicideEffects (log : String) : List Effect :=
  if jsIncludes log "was suicide by Suicide" then
    [Effect.playerSuicide ((jsSplitOn log " was suicide by Suicide").headD log)]
  else []

/-- PLAYER_RESPAWNED section of `ConsoleMessagesHandler.handle`
(src/unnamed/part_001, lines 134-142). -/
def respawnEffects (log : String) : List Effect :=
  if jsIncludes log "has entered the game" then
    [Effect.playerRespawned ((jsSplitOn log " [").headD log)
      (if jsIncludes log "[xboxone]" then "XBL" else "PS")]
  else []

/-- EVENT_START section of `ConsoleMessagesHandler.handle`
(src/unnamed/part_001, lines 297-308): every `EVENTS` entry whose key occurs
in the line fires its own start event, with no early exit. -/
def eventStartEffects (log : String) : List Effect :=
  if jsStartsWith log "[event]" then
    (EVENTS.filter (fun e => jsIncludes log e.key)).map
      (fun e => Effect.eventStart e.name e.special)
  else []

/-- PLAYER_KILL section of `ConsoleMessagesHandler.handle`
(src/unnamed/part_001, lines 309-321): the guard
`log.includes(" was killed by ")` holds exactly when the split yields at
least two parts, and the destructuring takes the first two. -/
def killEffects (log : String) : List Effect :=
  match jsSplitOn log " was killed by " with
  | v :: k :: _ => [Effect.playerKill (getKill (jsTrim v)) (getKill (jsTrim k))]
  | _ => []

/-- Domain-decoding sections of the per-line classifier that the claims
concern, in their source order.  The regex-driven sections in between
(vending rename, quick chat, zones, roles, item/kit, notes, teams, special
events) depend on patterns of the constants module absent from src/ and are
not needed by any claim; they emit none of the effect kinds inspected
below. -/
def domainEffects (log : String) : List Effect :=
  suicideEffects log ++ respawnEffects log ++ eventStartEffects log ++
    killEffects log

/-- Fallback branch of the command-response detection
(src/unnamed/part_001, lines 87-99): when a current open command is
remembered, resolve it with this line if it is still registered, clearing
the marker; otherwise leave everything unchanged. -/
def correlateFallback (reg : List InFlightCommand) (cc : Option String)
    (identifier log : String) :
    List InFlightCommand × Option String × List Effect :=
  match cc with
  | some cur =>
    match CommandHandler.get reg identifier cur with
    | some c =>
      (CommandHandler.removeOpt reg (some c), none,
       [Effect.resolveCommand c.command true (some log),
        Effect.clearTimeout c.command])
    | none => (reg, cc, [])
  | none => (reg, cc, [])

/-- Command-response detection of the per-line classifier
(src/unnamed/part_001, lines 76-99): a timestamp-matched in-flight command
on a non-save line is resolved with the line content, its timeout cleared
and the record removed; otherwise the remembered open command is tried. -/
def correlateLine (reg : List InFlightCommand) (cc : Option String)
    (identifier date log : String) :
    List InFlightCommand × Option String × List Effect :=
  match CommandHandler.getQueued reg identifier date with
  | some c =>
    if jsStartsWith log "[ SAVE ]" then correlateFallback reg cc identifier log
    else
      (CommandHandler.removeOpt reg (some c), cc,
       [Effect.resolveCommand c.command true (some log),
        Effect.clearTimeout c.command])
  | none => correlateFallback reg cc identifier log

/-- Response detection followed by domain decoding, the tail of the per-line
classifier after the executing-marker section has not returned early. -/
def processResponseAndDomain (reg : List InFlightCommand) (cc : Option String)
    (identifier date log : String) (base : List Effect) :
    List InFlightCommand × Option String × List Effect :=
  let out := correlateLine reg cc identifier date log
  (out.1, out.2.1, base ++ out.2.2 ++ domainEffects log)

/-- Per-line body of `ConsoleMessagesHandler.handle`
(src/unnamed/part_001, lines 49-322) on an already pattern-split
`(date, content)` pair: trim, emit the raw message, handle the
executing-command marker (stamping returns early), then response detection
and domain decoding. -/
def processLine (reg : List InFlightCommand) (cc : Option String)
    (identifier date content : String) :
    List InFlightCommand × Option String × List Effect :=
  let log := jsTrim content
  if log == "" then (reg, cc, [])
  else
    match parseExecuting log with
    | some cmd =>
      let base := [Effect.message log, Effect.executingCommand cmd]
      match CommandHandler.get reg identifier cmd with
      | some c =>
        if c.timestamp == none then
          (stampTimestamp reg identifier cmd date, some cmd, base)
        else processResponseAndDomain reg cc identifier date log base
      | none => processResponseAndDomain reg cc identifier date log base
    | none =>
      processResponseAndDomain reg cc identifier date log [Effect.message log]

/-- Session state needed by the classifier and the radio poller: identifier,
short-lived string flags and the tracked radio frequencies. -/
structure RustServer where
  identifier : String
  flags : List String
  frequencies : List Nat
deriving Repr, DecidableEq

/-- Live-batch processing: each split line is pattern-parsed (failures are
skipped) and fed to the per-line classifier, threading the registry and the
current-open-command marker through the batch. -/
def processBatchLines (reg : List InFlightCommand) (identifier : String)
    (lines : List String) :
    List InFlightCommand × Option String × List Effect :=
  lines.foldl
    (fun acc line =>
      match parseLog line with
      | none => acc
      | some (date, content) =>
        let out := processLine acc.1 acc.2.1 identifier date content
        (out.1, out.2.1, acc.2.2 ++ out.2.2))
    (reg, none, [])

/-- Batch entry point `ConsoleMessagesHandler.handle`
(src/unnamed/part_001, lines 39-322): split the raw payload on newlines,
drop empty lines, consume the first-ever batch solely to set the INIT_LOGS
flag, and process every later batch as live lines. -/
def handle (reg : List InFlightCommand) (server : RustServer)
    (message : String) :
    List InFlightCommand × RustServer × List Effect :=
  let messageArray := (jsSplitOn message "\n").filter (fun e => e != "")
  if !(server.flags.contains "INIT_LOGS") then
    (reg, { server with flags := server.flags ++ ["INIT_LOGS"] }, [])
  else
    let out := processBatchLines reg server.identifier messageArray
    (out.1, server, out.2.2)

/-- Result object a command dispatch resolves with
(`CommandResponse` of src/unnamed/part_002). -/
structure CommandResponse where
  ok : Bool
  response : Option String := none
  error : Option String := none
deriving Repr, DecidableEq

/-- Outcome of the outbound `sendConsoleMessage` request as observed by the
dispatch code of `ServerManager.command`: the fetch either throws, or yields
a reply with an HTTP ok flag, a status line, and a body whose
`data.sendConsoleMessage.ok` field coerces to the given boolean
(`none` models a body on which `response.json()` throws, with a fixed
placeholder for the raised message). -/
inductive RequestOutcome where
  | throws (msg : String)
  | replies (httpOk : Bool) (statusLine : String) (bodyOk : Option Bool)
deriving Repr, DecidableEq

/-- Holds whenever the dispatch code reports the outbound request as failed:
a thrown fetch, a non-2xx status, or a server reply that is not ok. -/
def RequestOutcome.fails : RequestOutcome → Bool
  | .throws _ => true
  | .replies httpOk _ bodyOk => !httpOk || bodyOk != some true

/-- State left by one response-awaiting dispatch of `ServerManager.command`
(src/unnamed/part_002, lines 544-607): the registry after the dispatch, the
promise resolutions issued during it in call order (the promise takes the
first), and the delay of the attached timeout when one was armed. -/
structure DispatchState where
  registry : List InFlightCommand
  resolutions : List CommandResponse
  timeoutMs : Option Nat
deriving Repr, DecidableEq

/-- Response-awaiting dispatch path of `ServerManager.command`
(src/unnamed/part_002, lines 544-607): register the in-flight record before
sending; on a thrown fetch remove it and resolve as failed; on a non-2xx
status or a not-ok body remove it and resolve as failed, falling through;
finally, when the record is still registered, arm the 3-second timeout. -/
def commandAwaitingResponse (reg : List InFlightCommand)
    (identifier command : String) (req : RequestOutcome) : DispatchState :=
  let reg0 := CommandHandler.add reg ⟨identifier, command, none⟩
  match req with
  | .throws msg =>
    ⟨CommandHandler.removeOpt reg0 (CommandHandler.get reg0 identifier command),
     [⟨false, none, some msg⟩], none⟩
  | .replies httpOk statusLine bodyOk =>
    let st1 : DispatchState :=
      if httpOk then ⟨reg0, [], none⟩
      else
        ⟨CommandHandler.removeOpt reg0 (CommandHandler.get reg0 identifier command),
         [⟨false, none, some ("HTTP " ++ statusLine)⟩], none⟩
    match bodyOk with
    | none =>
      ⟨CommandHandler.removeOpt st1.registry
         (CommandHandler.get st1.registry identifier command),
       st1.resolutions ++ [⟨false, none, some "Unexpected end of JSON input"⟩],
       none⟩
    | some b =>
      let st2 : DispatchState :=
        if b then st1
        else
          ⟨CommandHandler.removeOpt st1.registry
             (CommandHandler.get st1.registry identifier command),
           st1.resolutions ++ [⟨false, none, some "AioRpcError"⟩], none⟩
      if (CommandHandler.get st2.registry identifier command).isSome then
        ⟨st2.registry, st2.resolutions, some 3000⟩
      else st2

/-- Firing of the armed dispatch timeout (src/unnamed/part_002,
lines 592-598): remove the record by key and resolve as successful with an
absent response body. -/
def fireCommandTimeout (reg : List InFlightCommand)
    (identifier command : String) : List InFlightCommand × CommandResponse :=
  (CommandHandler.removeOpt reg (CommandHandler.get reg identifier command),
   ⟨true, none, none⟩)

/-- The value the dispatch promise settles with during the dispatch itself:
the first resolution call wins, later calls are no-ops. -/
def promiseResult (d : DispatchState) : Option CommandResponse :=
  d.resolutions.head?

/-- One broadcast parsed from a radio scan line
`[freq MHz] Position: (x, y, z), Range: r` (src/unnamed/part_002,
lines 677-691); the coordinate captures are kept as their matched text. -/
structure Broadcast where
  frequency : Nat
  coordinates : List String
  range : Nat
deriving Repr, DecidableEq

/-- Frequency-lost pass of `ServerManager.updateBroadcasters`
(src/unnamed/part_002, lines 693-702): iterate over the frequency list as
captured at the start; every tracked frequency absent from the scan emits a
lost event and is filtered out of the current list. -/
def loseStep (broadcasts : List Broadcast) (acc : List Nat × List Effect)
    (freq : Nat) : List Nat × List Effect :=
  if broadcasts.any (fun b => b.frequency == freq) then acc
  else (acc.1.filter (fun f => f != freq), acc.2 ++ [Effect.frequencyLost freq])

/-- Frequency-gained pass of `ServerManager.updateBroadcasters`
(src/unnamed/part_002, lines 704-728): every scanned frequency not yet
tracked is appended, emits the oil-rig timed-event start for the two
distinguished frequencies, then the gained event with coordinates and
range. -/
def gainStep (acc : List Nat × List Effect) (b : Broadcast) :
    List Nat × List Effect :=
  if acc.1.contains b.frequency then acc
  else
    (acc.1 ++ [b.frequency],
     acc.2 ++
       (if b.frequency == 4765 then [Effect.eventStart "Small Oil Rig" false]
        else if b.frequency == 4768 then [Effect.eventStart "Oil Rig" false]
        else []) ++
       [Effect.frequencyGained b.frequency b.coordinates b.range])

/-- Diffing core of `ServerManager.updateBroadcasters`
(src/unnamed/part_002, lines 693-728) on the parsed scan result: the lost
pass over the previously stored frequencies followed by the gained pass over
the scanned broadcasts, returning the stored list and the emitted effects. -/
def updateBroadcastersCore (freqs : List Nat) (broadcasts : List Broadcast) :
    List Nat × List Effect :=
  broadcasts.foldl gainStep (freqs.foldl (loseStep broadcasts) (freqs, []))

/-! Registry lemmas shared by the dispatch and correlation theorems. -/

/-- Removing the result of a key lookup leaves no record with that key. -/
theorem get_remove_get_none (reg : List InFlightCommand)
    (identifier command : String) :
    CommandHandler.get
        (CommandHandler.removeOpt reg
          (CommandHandler.get reg identifier command)) identifier command =
      none := by
  cases h : CommandHandler.get reg identifier command with
  | none => simpa [CommandHandler.removeOpt] using h
  | some c =>
    have hc := List.find?_some (by simpa [CommandHandler.get] using h)
    simp only [Bool.and_eq_true, beq_iff_eq] at hc
    obtain ⟨hci, hcc⟩ := hc
    simp only [CommandHandler.removeOpt, CommandHandler.get, List.find?_eq_none,
      List.mem_filter, Bool.and_eq_true, beq_iff_eq, Bool.not_eq_true,
      Bool.not_eq_true']
    rintro x ⟨-, hq⟩ ⟨hxi, hxc⟩
    rw [hxi, hxc, ← hci, ← hcc] at hq
    simp at hq

/-- A second removal by the same key after a removal is a no-op. -/
theorem remove_get_stable (reg : List InFlightCommand)
    (identifier command : String) :
    CommandHandler.removeOpt
        (CommandHandler.removeOpt reg (CommandHandler.get reg identifier command))
        (CommandHandler.get
          (CommandHandler.removeOpt reg
            (CommandHandler.get reg identifier command)) identifier command) =
      CommandHandler.removeOpt reg (CommandHandler.get reg identifier command) := by
  rw [get_remove_get_none]
  rfl

/-- Removing an absent lookup result is a no-op. -/
theorem removeOpt_none (reg : List InFlightCommand) :
    CommandHandler.removeOpt reg none = reg := rfl

/-- Registering a fresh record appends it and makes it the key lookup
result. -/
theorem get_add_of_none (reg : List InFlightCommand)
    (identifier command : String)
    (h : CommandHandler.get reg identifier command = none) :
    CommandHandler.add reg ⟨identifier, command, none⟩ =
        reg ++ [⟨identifier, command, none⟩] ∧
    CommandHandler.get (reg ++ [⟨identifier, command, none⟩])
        identifier command = some ⟨identifier, command, none⟩ := by
  constructor
  · simp [CommandHandler.add, h]
  · simp only [CommandHandler.get] at h ⊢
    rw [List.find?_append, h]
    simp

/-! Effect-shape lemmas for the fan-out property. -/

/-- The correlation fallback emits no timed-event-start effect. -/
theorem correlateFallback_no_eventStart (reg : List InFlightCommand)
    (cc : Option String) (identifier log : String) :
    ((correlateFallback reg cc identifier log).2.2).filter Effect.isEventStart =
      [] := by
  cases cc with
  | none => rfl
  | some cur =>
    cases h : CommandHandler.get reg identifier cur with
    | none => simp [correlateFallback, h]
    | some c => simp [correlateFallback, h, Effect.isEventStart]

/-- The command-response detection emits no timed-event-start effect. -/
theorem correlateLine_no_eventStart (reg : List InFlightCommand)
    (cc : Option String) (identifier date log : String) :
    ((correlateLine reg cc identifier date log).2.2).filter Effect.isEventStart =
      [] := by
  cases hq : CommandHandler.getQueued reg identifier date with
  | none =>
    simp only [correlateLine, hq]
    exact correlateFallback_no_eventStart reg cc identifier log
  | some c =>
    by_cases hs : jsStartsWith log "[ SAVE ]" = true
    · simp only [correlateLine, hq, hs, if_true]
      exact correlateFallback_no_eventStart reg cc identifier log
    · simp only [Bool.not_eq_true] at hs
      simp [correlateLine, hq, hs, Effect.isEventStart]

/-- The suicide section emits no timed-event-start effect. -/
theorem suicideEffects_no_eventStart (log : String) :
    (suicideEffects log).filter Effect.isEventStart = [] := by
  unfold suicideEffects
  split <;> simp [Effect.isEventStart]

/-- The respawn section emits no timed-event-start effect. -/
theorem respawnEffects_no_eventStart (log : String) :
    (respawnEffects log).filter Effect.isEventStart = [] := by
  unfold respawnEffects
  split <;> simp [Effect.isEventStart]

/-- The kill section emits no timed-event-start effect. -/
theorem killEffects_no_eventStart (log : String) :
    (killEffects log).filter Effect.isEventStart = [] := by
  unfold killEffects
  split <;> simp [Effect.isEventStart]

/-- Start events built from table entries all pass the start-event filter. -/
theorem filter_isEventStart_map (l : List TimedEventEntry) :
    (l.map (fun e => Effect.eventStart e.name e.special)).filter
        Effect.isEventStart =
      l.map (fun e => Effect.eventStart e.name e.special) := by
  induction l with
  | nil => rfl
  | cons a t ih => simp [Effect.isEventStart, ih]

/-! Claim theorems. -/

/-- C4: for old and new name lists with disjoint content, the population
differ returns `joined` equal to the new names not in the old list and
`left` equal to the old names not in the new list, each a sublist of its
source list (relative order preserved); under disjointness these are the
whole new and old lists.  Mutation of the inputs cannot occur in the
embedding because `comparePopulation` is a pure function of its
arguments. -/
theorem comparePopulation_diff (oldList newList : List String)
    (h : ∀ x ∈ oldList, x ∉ newList) :
    (comparePopulation oldList newList).1 =
        newList.filter (fun x => decide (x ∉ oldList)) ∧
    (comparePopulation oldList newList).2 =
        oldList.filter (fun x => decide (x ∉ newList)) ∧
    (comparePopulation oldList newList).1.Sublist newList ∧
    (comparePopulation oldList newList).2.Sublist oldList ∧
    (comparePopulation oldList newList).1 = newList ∧
    (comparePopulation oldList newList).2 = oldList := by
  refine ⟨?_, ?_, ?_, ?_, ?_, ?_⟩
  · exact List.filter_congr (by intro x hx; simp [List.contains])
  · exact List.filter_congr (by intro x hx; simp [List.contains])
  · exact List.filter_sublist newList
  · exact List.filter_sublist oldList
  · refine List.filter_eq_self.mpr ?_
    intro a ha
    simp only [List.contains, Bool.not_eq_true', List.elem_eq_mem,
      decide_eq_false_iff_not]
    exact fun hmem => h a hmem ha
  · refine List.filter_eq_self.mpr ?_
    intro a ha
    simp only [List.contains, Bool.not_eq_true', List.elem_eq_mem,
      decide_eq_false_iff_not]
    exact fun hmem => h a ha hmem

/-- Witness for C4 at concrete disjoint lists. -/
theorem comparePopulation_diff_witness :
    (comparePopulation ["Alice", "Bob"] ["Carol"]).1 = ["Carol"] ∧
    (comparePopulation ["Alice", "Bob"] ["Carol"]).2 = ["Alice", "Bob"] :=
  ⟨(comparePopulation_diff ["Alice", "Bob"] ["Carol"] (by decide)).2.2.2.2.1,
   (comparePopulation_diff ["Alice", "Bob"] ["Carol"] (by decide)).2.2.2.2.2⟩

/-- C6: with stored frequencies 4765 and a scan parsed to a single 4768 MHz
broadcast, the radio poller emits exactly one frequency-lost for 4765, one
timed-event start named Oil Rig, and one frequency-gained for 4768 carrying
the scanned coordinates and range, and the stored list becomes 4768 only. -/
theorem updateBroadcasters_oilrig (coordinates : List String) (range : Nat) :
    updateBroadcastersCore [4765] [⟨4768, coordinates, range⟩] =
      ([4768],
       [Effect.frequencyLost 4765, Effect.eventStart "Oil Rig" false,
        Effect.frequencyGained 4768 coordinates range]) := rfl

/-- C7: a live line containing a kill with a purely numeric killer
identifier emits a player-kill event whose victim resolves to a player and
whose killer resolves to a generic NPC, each side resolved by `getKill`. -/
theorem player_kill_classification :
    (processLine [] none "s" "T" "PlayerName was killed by 12345").2.2 =
      [Effect.message "PlayerName was killed by 12345",
       Effect.playerKill (getKill "PlayerName") (getKill "12345")] ∧
    getKill "PlayerName" =
      ⟨"PlayerName", "PlayerName", PlayerKillType.player⟩ ∧
    getKill "12345" = ⟨"12345", "Scientist", PlayerKillType.npc⟩ := by decide

/-- C9: `getKill` returns the input identifier unchanged as the `id` field
on every branch, and the string consisting of the single digit zero is
classified as a player named by itself, because `Number` coerces it to the
falsy value zero. -/
theorem getKill_id_preserved :
    (∀ ign : String, (getKill ign).id = ign) ∧
    getKill "0" = ⟨"0", "0", PlayerKillType.player⟩ := by
  constructor
  · intro ign
    unfold getKill
    split
    · rfl
    · split <;> rfl
  · decide

/-- The frequency-lost pass only ever filters the current list, so it
preserves duplicate-freeness. -/
theorem loseFold_nodup (broadcasts : List Broadcast) (l : List Nat) :
    ∀ acc : List Nat × List Effect, acc.1.Nodup →
      ((l.foldl (loseStep broadcasts) acc).1).Nodup := by
  induction l with
  | nil => intro acc hacc; simpa using hacc
  | cons a t ih =>
    intro acc hacc
    simp only [List.foldl_cons]
    apply ih
    unfold loseStep
    split
    · exact hacc
    · exact hacc.filter _

/-- The frequency-gained pass appends a frequency only when it is not yet
present, so it preserves duplicate-freeness. -/
theorem gainFold_nodup (l : List Broadcast) :
    ∀ acc : List Nat × List Effect, acc.1.Nodup →
      ((l.foldl gainStep acc).1).Nodup := by
  induction l with
  | nil => intro acc hacc; simpa using hacc
  | cons b t ih =>
    intro acc hacc
    simp only [List.foldl_cons]
    apply ih
    unfold gainStep
    split
    · exact hacc
    · next hcon =>
      simp only [List.contains, Bool.not_eq_true, List.elem_eq_mem,
        decide_eq_false_iff_not] at hcon
      rw [List.nodup_append]
      refine ⟨hacc, List.nodup_singleton _, ?_⟩
      intro x hx hx2
      simp only [List.mem_singleton] at hx2
      subst hx2
      exact hcon hx

/-- C10: the radio poller preserves duplicate-freeness of the stored
frequency list: removals only filter existing entries and a frequency is
appended only when not already present. -/
theorem updateBroadcasters_nodup (freqs : List Nat)
    (broadcasts : List Broadcast) (h : freqs.Nodup) :
    ((updateBroadcastersCore freqs broadcasts).1).Nodup := by
  unfold updateBroadcastersCore
  exact gainFold_nodup broadcasts _ (loseFold_nodup broadcasts freqs (freqs, []) h)

/-- Witness for C10 at a concrete duplicate-free frequency list. -/
theorem updateBroadcasters_nodup_witness :
    ([4765, 4768] : List Nat).Nodup ∧
    ((updateBroadcastersCore [4765, 4768]
        [⟨4770, ["0.0", "0.0", "0.0"], 100⟩]).1).Nodup :=
  ⟨by decide,
   updateBroadcasters_nodup [4765, 4768] [⟨4770, ["0.0", "0.0", "0.0"], 100⟩]
     (by decide)⟩

/-- C5: the first batch ever delivered for a session, regardless of its
content, produces zero effects and only appends the INIT_LOGS flag to the
session, leaving the registry untouched; every later batch is processed as
live lines through the per-line classifier. -/
theorem handle_first_batch (reg : List InFlightCommand) (server : RustServer)
    (message : String) :
    (server.flags.contains "INIT_LOGS" = false →
      handle reg server message =
        (reg, { server with flags := server.flags ++ ["INIT_LOGS"] }, [])) ∧
    (server.flags.contains "INIT_LOGS" = true →
      handle reg server message =
        ((processBatchLines reg server.identifier
            ((jsSplitOn message "\n").filter (fun e => e != ""))).1,
         server,
         (processBatchLines reg server.identifier
            ((jsSplitOn message "\n").filter (fun e => e != ""))).2.2)) := by
  constructor
  · intro h
    have h2 : "INIT_LOGS" ∉ server.flags := by simpa using h
    simp [handle, h2]
  · intro h
    have h2 : "INIT_LOGS" ∈ server.flags := by simpa using h
    simp [handle, h2]

/-- Witness for C5: a fresh session consumes its first batch into the flag
and emits nothing. -/
theorem handle_first_batch_witness :
    handle [] ⟨"s", [], []⟩ "T1:LOG:DEFAULT: hello\nT2:LOG:DEFAULT: world" =
      ([], ⟨"s", ["INIT_LOGS"], []⟩, []) :=
  (handle_first_batch [] ⟨"s", [], []⟩
      "T1:LOG:DEFAULT: hello\nT2:LOG:DEFAULT: world").1 (by decide)

/-- C1 counterexample: the fallback branch of response matching does not
always resolve the remembered open command.  In one live batch, an
executing marker stamps the in-flight command and remembers it as the
current open command; the next line at the stamped timestamp resolves the
command by timestamp match, which removes the record but leaves the marker
set; a later line with a fresh timestamp then satisfies the claimed
premise (a marker is remembered, no timestamp match), yet the code resolves
nothing and retains the marker instead of resolving the remembered command
and clearing it. -/
theorem correlation_fallback_counterexample :
    (let s1 := processLine [⟨"s", "users", none⟩] none "s" "T1"
        "Executing command: users"
     let s2 := processLine s1.1 s1.2.1 "s" "T1" "response A"
     let s3 := processLine s2.1 s2.2.1 "s" "T2" "later line"
     s2.2.1 = some "users" ∧ CommandHandler.get s2.1 "s" "users" = none ∧
       s3.2.1 = some "users" ∧ s3.2.2 = [Effect.message "later line"]) := by
  decide

/-- C1 amended: on a live line reaching response detection, if an in-flight
command of the session has a stamped timestamp equal to the line timestamp
and the line is not a save line, that command is resolved with the line
content, its timeout is cleared and its record is removed, the marker being
unaffected; otherwise, if a current open command is remembered and a record
with that text is still registered for the session, that record is resolved
with the line content, its timeout cleared, its record removed and the
marker cleared; if no such record remains registered, nothing is resolved
and the marker is retained. -/
theorem correlation_priority (reg : List InFlightCommand) (cc : Option String)
    (identifier date log : String) :
    (∀ c, CommandHandler.getQueued reg identifier date = some c →
      jsStartsWith log "[ SAVE ]" = false →
      correlateLine reg cc identifier date log =
        (CommandHandler.removeOpt reg (some c), cc,
         [Effect.resolveCommand c.command true (some log),
          Effect.clearTimeout c.command])) ∧
    ((CommandHandler.getQueued reg identifier date = none ∨
        jsStartsWith log "[ SAVE ]" = true) →
      ∀ cur, cc = some cur →
        (∀ c, CommandHandler.get reg identifier cur = some c →
          correlateLine reg cc identifier date log =
            (CommandHandler.removeOpt reg (some c), none,
             [Effect.resolveCommand c.command true (some log),
              Effect.clearTimeout c.command])) ∧
        (CommandHandler.get reg identifier cur = none →
          correlateLine reg cc identifier date log = (reg, cc, []))) := by
  constructor
  · intro c hq hs
    simp [correlateLine, hq, hs]
  · rintro hcase cur rfl
    constructor
    · intro c hc
      rcases hcase with hnone | hsave
      · simp [correlateLine, hnone, correlateFallback, hc]
      · cases hq : CommandHandler.getQueued reg identifier date with
        | none => simp [correlateLine, hq, correlateFallback, hc]
        | some c2 => simp [correlateLine, hq, hsave, correlateFallback, hc]
    · intro hc
      rcases hcase with hnone | hsave
      · simp [correlateLine, hnone, correlateFallback, hc]
      · cases hq : CommandHandler.getQueued reg identifier date with
        | none => simp [correlateLine, hq, correlateFallback, hc]
        | some c2 => simp [correlateLine, hq, hsave, correlateFallback, hc]

/-- Witness for C1 amended: a stamped in-flight command matched by the line
timestamp on a non-save line is resolved with the line content and its
record removed. -/
theorem correlation_priority_witness :
    correlateLine [⟨"s", "users", some "T"⟩] none "s" "T" "players online" =
      ([], (none : Option String),
       [Effect.resolveCommand "users" true (some "players online"),
        Effect.clearTimeout "users"]) :=
  (correlation_priority [⟨"s", "users", some "T"⟩] none "s" "T"
      "players online").1 ⟨"s", "users", some "T"⟩ (by decide) (by decide)

/-- C2: a response-awaiting dispatch whose outbound request succeeds and
which no correlation resolves issues no resolution during the dispatch
itself, arms the 3-second timeout, and firing that timeout resolves the
promise as successful with an absent response body and removes the
in-flight record from the registry. -/
theorem command_timeout_resolution (reg : List InFlightCommand)
    (identifier command statusLine : String)
    (h : CommandHandler.get reg identifier command = none) :
    (commandAwaitingResponse reg identifier command
        (.replies true statusLine (some true))).resolutions = [] ∧
    (commandAwaitingResponse reg identifier command
        (.replies true statusLine (some true))).timeoutMs = some 3000 ∧
    (fireCommandTimeout
        (commandAwaitingResponse reg identifier command
          (.replies true statusLine (some true))).registry
        identifier command).2 = ⟨true, none, none⟩ ∧
    CommandHandler.get
        (fireCommandTimeout
          (commandAwaitingResponse reg identifier command
            (.replies true statusLine (some true))).registry
          identifier command).1 identifier command = none := by
  obtain ⟨hadd, hget⟩ := get_add_of_none reg identifier command h
  have hd : commandAwaitingResponse reg identifier command
      (.replies true statusLine (some true)) =
      ⟨reg ++ [⟨identifier, command, none⟩], [], some 3000⟩ := by
    simp [commandAwaitingResponse, hadd, hget]
  refine ⟨by rw [hd], by rw [hd], rfl, ?_⟩
  rw [hd]
  exact get_remove_get_none _ identifier command

/-- Witness for C2 at an empty registry. -/
theorem command_timeout_resolution_witness :
    (commandAwaitingResponse [] "s" "users"
        (.replies true "200 OK" (some true))).resolutions = [] ∧
    (commandAwaitingResponse [] "s" "users"
        (.replies true "200 OK" (some true))).timeoutMs = some 3000 ∧
    (fireCommandTimeout
        (commandAwaitingResponse [] "s" "users"
          (.replies true "200 OK" (some true))).registry "s" "users").2 =
      ⟨true, none, none⟩ ∧
    CommandHandler.get
        (fireCommandTimeout
          (commandAwaitingResponse [] "s" "users"
            (.replies true "200 OK" (some true))).registry "s" "users").1
        "s" "users" = none :=
  command_timeout_resolution [] "s" "users" "200 OK" (by decide)

/-- C3: a response-awaiting dispatch whose outbound request fails — a
thrown fetch, a non-2xx status, an unreadable body, or a reply that is not
ok — leaves no record with the dispatched key in the registry, arms no
timeout, and its promise settles with a failed result carrying a reason
string. -/
theorem command_request_failure (reg : List InFlightCommand)
    (identifier command : String) (req : RequestOutcome)
    (h : CommandHandler.get reg identifier command = none)
    (hf : req.fails = true) :
    CommandHandler.get
        (commandAwaitingResponse reg identifier command req).registry
        identifier command = none ∧
    (commandAwaitingResponse reg identifier command req).timeoutMs = none ∧
    ∃ r, promiseResult (commandAwaitingResponse reg identifier command req) =
        some r ∧ r.ok = false ∧ r.error.isSome = true := by
  obtain ⟨hadd, hget⟩ := get_add_of_none reg identifier command h
  have hr0 : CommandHandler.get
      (CommandHandler.removeOpt (reg ++ [⟨identifier, command, none⟩])
        (some ⟨identifier, command, none⟩)) identifier command = none := by
    have h2 := get_remove_get_none (reg ++ [⟨identifier, command, none⟩])
      identifier command
    rwa [hget] at h2
  cases req with
  | throws msg =>
    have hd : commandAwaitingResponse reg identifier command (.throws msg) =
        ⟨CommandHandler.removeOpt (reg ++ [⟨identifier, command, none⟩])
           (some ⟨identifier, command, none⟩),
         [⟨false, none, some msg⟩], none⟩ := by
      simp [commandAwaitingResponse, hadd, hget]
    exact ⟨by rw [hd]; exact hr0, by rw [hd],
      ⟨false, none, some msg⟩, by rw [hd]; rfl, rfl, rfl⟩
  | replies httpOk statusLine bodyOk =>
    cases httpOk with
    | false =>
      cases bodyOk with
      | none =>
        have hd : commandAwaitingResponse reg identifier command
            (.replies false statusLine none) =
            ⟨CommandHandler.removeOpt (reg ++ [⟨identifier, command, none⟩])
               (some ⟨identifier, command, none⟩),
             [⟨false, none, some ("HTTP " ++ statusLine)⟩,
              ⟨false, none, some "Unexpected end of JSON input"⟩], none⟩ := by
          simp [commandAwaitingResponse, hadd, hget, hr0, removeOpt_none]
        exact ⟨by rw [hd]; exact hr0, by rw [hd],
          ⟨false, none, some ("HTTP " ++ statusLine)⟩, by rw [hd]; rfl, rfl, rfl⟩
      | some b =>
        cases b with
        | false =>
          have hd : commandAwaitingResponse reg identifier command
              (.replies false statusLine (some false)) =
              ⟨CommandHandler.removeOpt (reg ++ [⟨identifier, command, none⟩])
                 (some ⟨identifier, command, none⟩),
               [⟨false, none, some ("HTTP " ++ statusLine)⟩,
                ⟨false, none, some "AioRpcError"⟩], none⟩ := by
            simp [commandAwaitingResponse, hadd, hget, hr0, removeOpt_none]
          exact ⟨by rw [hd]; exact hr0, by rw [hd],
            ⟨false, none, some ("HTTP " ++ statusLine)⟩, by rw [hd]; rfl, rfl, rfl⟩
        | true =>
          have hd : commandAwaitingResponse reg identifier command
              (.replies false statusLine (some true)) =
              ⟨CommandHandler.removeOpt (reg ++ [⟨identifier, command, none⟩])
                 (some ⟨identifier, command, none⟩),
               [⟨false, none, some ("HTTP " ++ statusLine)⟩], none⟩ := by
            simp [commandAwaitingResponse, hadd, hget, hr0, removeOpt_none]
          exact ⟨by rw [hd]; exact hr0, by rw [hd],
            ⟨false, none, some ("HTTP " ++ statusLine)⟩, by rw [hd]; rfl, rfl, rfl⟩
    | true =>
      cases bodyOk with
      | none =>
        have hd : commandAwaitingResponse reg identifier command
            (.replies true statusLine none) =
            ⟨CommandHandler.removeOpt (reg ++ [⟨identifier, command, none⟩])
               (some ⟨identifier, command, none⟩),
             [⟨false, none, some "Unexpected end of JSON input"⟩], none⟩ := by
          simp [commandAwaitingResponse, hadd, hget]
        exact ⟨by rw [hd]; exact hr0, by rw [hd],
          ⟨false, none, some "Unexpected end of JSON input"⟩,
          by rw [hd]; rfl, rfl, rfl⟩
      | some b =>
        cases b with
        | false =>
          have hd : commandAwaitingResponse reg identifier command
              (.replies true statusLine (some false)) =
              ⟨CommandHandler.removeOpt (reg ++ [⟨identifier, command, none⟩])
                 (some ⟨identifier, command, none⟩),
               [⟨false, none, some "AioRpcError"⟩], none⟩ := by
            simp [commandAwaitingResponse, hadd, hget, hr0, removeOpt_none]
          exact ⟨by rw [hd]; exact hr0, by rw [hd],
            ⟨false, none, some "AioRpcError"⟩, by rw [hd]; rfl, rfl, rfl⟩
        | true => simp [RequestOutcome.fails] at hf

/-- Witness for C3 on a thrown fetch. -/
theorem command_request_failure_witness :
    CommandHandler.get
        (commandAwaitingResponse [] "s" "users"
          (.throws "network down")).registry "s" "users" = none ∧
    (commandAwaitingResponse [] "s" "users"
        (.throws "network down")).timeoutMs = none ∧
    ∃ r, promiseResult (commandAwaitingResponse [] "s" "users"
        (.throws "network down")) = some r ∧ r.ok = false ∧
        r.error.isSome = true :=
  command_request_failure [] "s" "users" (.throws "network down") (by decide)
    (by decide)

/-- C8: on a live line beginning with the event marker that is not an
executing marker, the timed-event-start effects emitted by the classifier
are exactly one start event per `EVENTS` entry whose key occurs in the
line, in table order and with no early exit, so a single line may fan out
to zero, one, or several start events. -/
theorem event_fanout (reg : List InFlightCommand) (cc : Option String)
    (identifier date content : String)
    (h1 : jsStartsWith (jsTrim content) "[event]" = true)
    (h2 : parseExecuting (jsTrim content) = none) :
    ((processLine reg cc identifier date content).2.2).filter
        Effect.isEventStart =
      (EVENTS.filter (fun e => jsIncludes (jsTrim content) e.key)).map
        (fun e => Effect.eventStart e.name e.special) := by
  have hne : (jsTrim content == "") = false := by
    cases he : jsTrim content == ""
    · rfl
    · have h3 := h1
      rw [eq_of_beq he] at h3
      exact absurd h3 (by decide)
  have hshape : processLine reg cc identifier date content =
      processResponseAndDomain reg cc identifier date (jsTrim content)
        [Effect.message (jsTrim content)] := by
    simp [processLine, hne, h2]
  rw [hshape]
  simp only [processResponseAndDomain, domainEffects, List.filter_append,
    correlateLine_no_eventStart, suicideEffects_no_eventStart,
    respawnEffects_no_eventStart, killEffects_no_eventStart]
  simp only [eventStartEffects, h1, if_true, filter_isEventStart_map]
  simp [Effect.isEventStart]

/-- Witness for C8: a line containing two event keys fans out to two start
events. -/
theorem event_fanout_witness :
    ((processLine [] none "s" "T"
        "[event] event_airdrop and event_cargoship incoming").2.2).filter
        Effect.isEventStart =
      [Effect.eventStart "Airdrop" false,
       Effect.eventStart "Cargo Ship" false] :=
  event_fanout [] none "s" "T"
    "[event] event_airdrop and event_cargoship incoming" (by decide) (by decide)
